import Mathlib

/-!
# ConfigMaster greeting pipeline — verification development

Shallow embedding of the configuration-validation / template-resolution
pipeline of `src/main.py` (functions `greet`, `async_greet`,
`list_templates`).  The leaf modules `src/config/i18n.py`,
`src/config/settings.py`, `src/config/templates.py` and
`src/config/validation.py` are not part of the sources; where their
behaviour decides a property they are modelled from the specification
(each such definition carries a doc comment starting `Modelled from the
spec:`).  Machine-level details that the claims do not depend on
(logging text, printing) are elided; the process-wide root-logger level
and the configuration object are threaded explicitly through `greet` so
that its side effects are visible in the embedding.
-/

set_option autoImplicit false

deriving instance DecidableEq for Except

namespace ConfigMaster

/-! ## Python `str.format` on the reserved placeholder set

`greet` builds its result with `template.format(...)` over the four
keyword fields (main.py lines 82–87).  We model CPython's format
parser for the simple field syntax these templates use: doubled braces
are brace escapes, `{field}` substitutes, a lone brace or an unknown
field is an error.  Substituted values are inserted verbatim and never
re-parsed, exactly as in CPython. -/

/-- Python `str.strip()` with no argument: remove leading and trailing
whitespace.  `Char.isWhitespace` covers the whitespace characters that
occur in the claims (space, tab, CR, LF). -/
def pyStrip (s : String) : String :=
  String.mk (((s.data.dropWhile Char.isWhitespace).reverse.dropWhile
    Char.isWhitespace).reverse)

/-- Helper for `pySplit`: split a character list at every occurrence of
the separator. -/
def splitChars (sep : Char) : List Char → List (List Char)
  | [] => [[]]
  | c :: rest =>
    if c = sep then [] :: splitChars sep rest
    else
      match splitChars sep rest with
      | [] => [[c]]
      | h :: t => (c :: h) :: t

/-- Python `s.split(sep)` for a one-character separator: e.g.
`"a,,b".split(",") == ["a", "", "b"]` and `"".split(",") == [""]`. -/
def pySplit (s : String) (sep : Char) : List String :=
  (splitChars sep s.data).map String.mk

/-- Errors of the formatting step: CPython raises `KeyError` for an
unknown field name and `ValueError` for a malformed pattern; main.py
catches `(KeyError, ValueError)` at the format site. -/
inductive FmtError where
  | keyError (field : String)
  | valueError
deriving DecidableEq, Repr

/-- One parsed token of a format pattern: a literal piece or a
replacement field. -/
inductive FTok where
  | lit (s : String)
  | field (s : String)
deriving DecidableEq, Repr

/-- Read a replacement-field name: the characters up to the next `}`.
Returns `none` when the pattern ends before the closing brace
(CPython: `ValueError: Single '{' encountered`). -/
def readField : List Char → Option (String × List Char)
  | [] => none
  | c :: rest =>
    if c = '}' then some ("", rest)
    else
      match readField rest with
      | none => none
      | some (f, r) => some (String.mk [c] ++ f, r)

/-- Tokenize a format pattern.  `fuel` bounds the recursion; callers
pass `length + 1`, which is always sufficient since every step consumes
at least one character. -/
def parseFmt : Nat → List Char → Option (List FTok)
  | 0, _ => none
  | _ + 1, [] => some []
  | fuel + 1, '{' :: rest =>
    match rest with
    | '{' :: rest2 => (parseFmt fuel rest2).map (fun ts => FTok.lit "\x7b" :: ts)
    | _ =>
      match readField rest with
      | none => none
      | some (f, rest2) => (parseFmt fuel rest2).map (fun ts => FTok.field f :: ts)
  | fuel + 1, '}' :: rest =>
    match rest with
    | '}' :: rest2 => (parseFmt fuel rest2).map (fun ts => FTok.lit "\x7d" :: ts)
    | _ => none
  | fuel + 1, c :: rest => (parseFmt fuel rest).map (fun ts => FTok.lit (String.mk [c]) :: ts)

/-- Render a token list, substituting each field through `subst`;
an unknown field name is a `KeyError`, as in CPython. -/
def renderToks (subst : String → Option String) : List FTok → Except FmtError String
  | [] => .ok ""
  | FTok.lit s :: ts =>
    match renderToks subst ts with
    | .ok r => .ok (s ++ r)
    | .error e => .error e
  | FTok.field f :: ts =>
    match subst f with
    | none => .error (.keyError f)
    | some v =>
      match renderToks subst ts with
      | .ok r => .ok (v ++ r)
      | .error e => .error e

/-- `pyFormat pat subst` models `pat.format(**subst)` for the simple
field syntax used by the greeting templates. -/
def pyFormat (pat : String) (subst : String → Option String) : Except FmtError String :=
  match parseFmt (pat.data.length + 1) pat.data with
  | none => .error .valueError
  | some ts => renderToks subst ts

/-! ## Error taxonomy

The resolver-level error taxonomy of spec §7.  In main.py these surface
as `ValidationError` (from `src.config.validation`), `ValueError` from
`get_translation` (spec name: `UnsupportedLanguageError`), `KeyError`
from `TemplateManager.get_template` (spec name: `TemplateNotFoundError`),
`ValueError` from the `TemplateCategory` constructor (spec name:
`InvalidCategoryError`), `(KeyError, ValueError)` from `str.format`
(spec name: `TemplateFormatError`), and `asyncio.TimeoutError` (spec
name: `OperationTimeoutError`). -/

/-- Resolver error taxonomy (spec §7). `validationError` carries the
field-name → problem mapping; `invalidCategoryError` carries the bad
value and the full list of valid category values. -/
inductive GreetError where
  | validationError (fields : List (String × String))
  | unsupportedLanguageError (value : String)
  | templateNotFoundError (style : String)
  | templateFormatError (e : FmtError)
  | invalidCategoryError (value : String) (valid : List String)
  | operationTimeoutError
deriving DecidableEq, Repr

/-! ## Translation catalog (`src/config/i18n.py`, absent from src/) -/

/-- Modelled from the spec: the closed `Language` enumeration of
`src/config/i18n.py` (absent from src/).  The spec (§3) names EN and
JA explicitly; ES and FR stand for the elided remainder of the closed
set. -/
inductive Language where
  | EN
  | JA
  | ES
  | FR
deriving DecidableEq, Repr

/-- The CLI-facing string value of each language (main.py line 195 uses
`lang.value`). -/
def Language.value : Language → String
  | .EN => "en"
  | .JA => "ja"
  | .ES => "es"
  | .FR => "fr"

/-- Modelled from the spec: spec §4.1 requires `get_translation` to
validate its argument independently "since callers may pass
raw/deserialized values".  A language value is therefore either a
member of the closed enumeration or a raw value outside it. -/
inductive LangInput where
  | known (l : Language)
  | unknown (raw : String)
deriving DecidableEq, Repr

/-- Modelled from the spec: `TranslationEntry` (§3), the immutable
`(greeting_prefix, greeting_suffix)` pair of one language.  Field
`greetingPre` embeds `greeting_prefix`, `greetingSuf` embeds
`greeting_suffix`. -/
structure TranslationEntry where
  greetingPre : String
  greetingSuf : String
deriving DecidableEq, Repr

/-- Modelled from the spec: the static per-language affix table of
`src/config/i18n.py` (absent from src/); the concrete affix strings are
representative, no claim depends on their exact content. -/
def translationCatalog : Language → TranslationEntry
  | .EN => ⟨"Hello", "!"⟩
  | .JA => ⟨"Konnichiwa", "!"⟩
  | .ES => ⟨"Hola", "!"⟩
  | .FR => ⟨"Bonjour", "!"⟩

/-- Modelled from the spec: `get_translation` (§4.1) — pure lookup,
fails with `UnsupportedLanguageError` for a value outside the
enumerated set (in main.py this surfaces as the `ValueError` caught at
lines 63–66). -/
def get_translation : LangInput → Except GreetError TranslationEntry
  | .known l => .ok (translationCatalog l)
  | .unknown raw => .error (.unsupportedLanguageError raw)

/-! ## Template registry (`src/config/templates.py`, absent from src/) -/

/-- Modelled from the spec: the closed `TemplateCategory` enumeration
(§3: "e.g., FORMAL, CASUAL, DEFAULT, closed set"). -/
inductive TemplateCategory where
  | FORMAL
  | CASUAL
  | DEFAULT
deriving DecidableEq, Repr

/-- String value of each category (main.py line 144 uses `c.value`). -/
def TemplateCategory.value : TemplateCategory → String
  | .FORMAL => "formal"
  | .CASUAL => "casual"
  | .DEFAULT => "default"

/-- The full list of valid category values, `[c.value for c in
TemplateCategory]` (main.py line 144). -/
def TemplateCategory.allValues : List String :=
  ["formal", "casual", "default"]

/-- Modelled from the spec: the `TemplateCategory(category)` enum
constructor called at main.py line 140 — maps a raw string to the
category with that value, or fails (Python: `ValueError`) when the
string is outside the closed set. -/
def TemplateCategory.fromString (s : String) : Option TemplateCategory :=
  if s = "formal" then some .FORMAL
  else if s = "casual" then some .CASUAL
  else if s = "default" then some .DEFAULT
  else none

/-- Modelled from the spec: `TemplateInfo` (§3) — pattern with
placeholders, category, searchable tags, description. -/
structure TemplateInfo where
  pattern : String
  category : TemplateCategory
  tags : List String
  description : String
deriving DecidableEq, Repr

/-- Modelled from the spec: the static template registry of
`src/config/templates.py` (absent from src/).  The style keys include
`"default"` (the `AppConfig` default, §4.3) and one style per remaining
category; every pattern uses only the reserved placeholder set
`{name, message, prefix, suffix}` (§3 invariant) and mentions `{name}`
(§8: resolved greetings contain the name verbatim). -/
def templateRegistry : List (String × TemplateInfo) :=
  [("default", ⟨"\x7bprefix\x7d, {name}{suffix} {message}", .DEFAULT,
     ["simple", "greeting"], "Default greeting template"⟩),
   ("formal", ⟨"\x7bprefix\x7d: {name}{suffix} {message}", .FORMAL,
     ["polite", "business"], "Formal greeting template"⟩),
   ("casual", ⟨"\x7bprefix\x7d {name}! {message}", .CASUAL,
     ["friendly", "informal"], "Casual greeting template"⟩)]

namespace TemplateManager

/-- Registry lookup by style key (Python dictionary access). -/
def lookup (style : String) : Option TemplateInfo :=
  (templateRegistry.find? (fun p => p.1 == style)).map Prod.snd

/-- Modelled from the spec: `TemplateManager.get_template` (§4.2) —
fails when the style is absent from the registry (Python: `KeyError`,
caught at main.py lines 77–79; spec name `TemplateNotFoundError`). -/
def get_template (style : String) : Except GreetError TemplateInfo :=
  match lookup style with
  | some info => .ok info
  | none => .error (.templateNotFoundError style)

/-- Modelled from the spec: `TemplateManager.list_templates` (§4.2) —
read-only snapshot of the whole registry. -/
def list_templates : List (String × TemplateInfo) :=
  templateRegistry

/-- Modelled from the spec: `TemplateManager.get_by_category` (§4.2) —
entries whose category equals the argument; empty result is not an
error. -/
def get_by_category (c : TemplateCategory) : List (String × TemplateInfo) :=
  templateRegistry.filter (fun p => p.2.category == c)

/-- Modelled from the spec: `TemplateManager.search_by_tags` (§4.2) —
entries whose tag set intersects the query (ANY tag match). -/
def search_by_tags (tags : List String) : List (String × TemplateInfo) :=
  templateRegistry.filter (fun p => p.2.tags.any (fun t => tags.contains t))

end TemplateManager

/-! ## Configuration model (`src/config/settings.py`, absent from src/) -/

/-- Modelled from the spec: `AppConfig` (§3) with the defaults of §4.3
(`debug=False`, `language=EN`, `template_style="default"`,
`custom_message=None`, `async_mode=False`); main.py line 277 shows
`log_level` defaulting to `"INFO"` when debug is off. -/
structure AppConfig where
  debug : Bool := false
  language : LangInput := .known .EN
  template_style : String := "default"
  custom_message : Option String := none
  async_mode : Bool := false
  log_level : String := "INFO"
deriving DecidableEq, Repr

/-! ## Logging levels

The numeric levels of the Python `logging` module; `greet` mutates the
process-wide root-logger level (main.py line 58), so the embedding
threads it explicitly. -/

/-- `logging.DEBUG` -/
def logging_DEBUG : Nat := 10

/-- `logging.INFO` — the level installed by `logging.basicConfig` at
main.py line 30, i.e. the root level before any `greet` call. -/
def logging_INFO : Nat := 20

/-! ## Greeting resolver (`greet`, main.py lines 35–92) -/

/-- The keyword substitution map of the `template.format(...)` call at
main.py lines 82–87: fields `name`, `message`, `prefix`, `suffix`. -/
def greetSubst (name message pre suf : String) : String → Option String
  | "name" => some name
  | "message" => some message
  | "prefix" => some pre
  | "suffix" => some suf
  | _ => none

/-- The hardcoded default-style pattern for Japanese (main.py line 74).
The source file literally contains the two characters U+00E3 U+20AC
between `{prefix}` and `{name}` (bytes `c3 a3 e2 82 ac`). -/
def cjkDefaultPattern : String := "\x7bprefix\x7dã€{name}! {message}"

/-- The hardcoded default-style pattern for every non-Japanese language
(main.py line 76). -/
def latinDefaultPattern : String := "\x7bprefix\x7d, {name}! {message}"

/-- Template resolution, main.py lines 68–79: fetch the style from the
registry (propagating the lookup failure), then — special case — when
the style is `"default"`, discard the stored pattern and pick a
hardcoded pattern keyed by language. -/
def resolveTemplate (cfg : AppConfig) : Except GreetError String :=
  match TemplateManager.get_template cfg.template_style with
  | .error e => .error e
  | .ok info =>
    if cfg.template_style = "default" then
      if cfg.language = LangInput.known Language.JA then .ok cjkDefaultPattern
      else .ok latinDefaultPattern
    else .ok info.pattern

/-- The body of `greet` after name validation and config resolution
(main.py lines 61–92): translations, template, format.  Format errors
surface as the spec's `TemplateFormatError`. -/
def greetBody (name : String) (cfg : AppConfig) : Except GreetError String :=
  match get_translation cfg.language with
  | .error e => .error e
  | .ok tr =>
    match resolveTemplate cfg with
    | .error e => .error e
    | .ok template =>
      match pyFormat template
          (greetSubst name (cfg.custom_message.getD "") tr.greetingPre tr.greetingSuf) with
      | .error e => .error (.templateFormatError e)
      | .ok message => .ok message

/-- `greet(name, config=None)` (main.py lines 35–92).  The embedding
threads the two pieces of ambient state the function can touch: the
caller's configuration object (returned unchanged — the source never
assigns to it) and the process-wide root-logger level `rootLevel`
(set to `logging.DEBUG` at line 58 when `cfg.debug` is on, after name
validation has passed; never restored). -/
def greet (name : String) (config : Option AppConfig) (rootLevel : Nat) :
    Except GreetError String × Option AppConfig × Nat :=
  if name = "" ∨ pyStrip name = "" then
    (.error (.validationError [("name", "Name cannot be empty")]), config, rootLevel)
  else if name.length > 1000 then
    (.error (.validationError [("name", "Name is too long (max 1000 characters)")]),
      config, rootLevel)
  else
    let cfg := config.getD {}
    let lv := if cfg.debug then logging_DEBUG else rootLevel
    (greetBody name cfg, config, lv)

/-- `async_greet(name, config=None)` (main.py lines 95–122): the same
logic wrapped in `asyncio.timeout(5.0)` around an `asyncio.sleep(0.1)`
and the synchronous `greet` call.  Real time is modelled by the
explicit `delayMs` parameter: the total scheduling delay, in
milliseconds, spent at the single suspension point (the sleep) before
`greet` runs.  When the delay exceeds the 5-second deadline the task is
cancelled at that suspension point — `greet` never runs, the ambient
state is untouched, and the caller sees the timeout error; otherwise
the wrapper returns exactly what `greet` returns (the two `except`
clauses at lines 117–122 only log and re-raise). -/
def async_greet (delayMs : Nat) (name : String) (config : Option AppConfig)
    (rootLevel : Nat) : Except GreetError String × Option AppConfig × Nat :=
  if delayMs > 5000 then
    (.error .operationTimeoutError, config, rootLevel)
  else
    greet name config rootLevel

/-! ## Template listing (`list_templates`, main.py lines 125–170) -/

/-- Python truthiness of an optional string argument: `None` and `""`
are both falsy (the `if category:` / `elif tags:` guards at main.py
lines 138 and 146). -/
def pyTruthy : Option String → Option String
  | some s => if s = "" then none else some s
  | none => none

/-- `list_templates(category=None, tags=None)` (main.py lines 125–170),
modelled as returning the style → info entries it would display, or the
error it raises.  A truthy `category` is validated against the closed
category set before any filtering (line 140); otherwise truthy `tags`
are validated (no empty tag, at most 10) before any tag search (lines
148–154); otherwise the whole registry is listed. -/
def list_templates (category tags : Option String) :
    Except GreetError (List (String × TemplateInfo)) :=
  match pyTruthy category with
  | some c =>
    match TemplateCategory.fromString c with
    | none => .error (.invalidCategoryError c TemplateCategory.allValues)
    | some cat => .ok (TemplateManager.get_by_category cat)
  | none =>
    match pyTruthy tags with
    | some t =>
      if !((pySplit t ',').all (fun x => pyStrip x != "")) then
        .error (.validationError [("tags", "Empty tags are not allowed")])
      else if (pySplit t ',').length > 10 then
        .error (.validationError [("tags", "Too many tags (max 10)")])
      else
        .ok (TemplateManager.search_by_tags (((pySplit t ',').map pyStrip).dedup))
    | none => .ok TemplateManager.list_templates

/-- `subListAt needle hay` — `needle` occurs in `hay` as a contiguous
sublist. -/
def subListAt (needle : List Char) : List Char → Bool
  | [] => needle.isEmpty
  | c :: rest => needle.isPrefixOf (c :: rest) || subListAt needle rest

/-- `strContains hay needle` — `needle` occurs in `hay` as a contiguous
substring. -/
def strContains (hay needle : String) : Bool :=
  subListAt needle.data hay.data

/-! ## Helper lemmas -/

lemma data_nil_iff (s : String) : s.data = [] ↔ s = "" := by
  obtain ⟨l⟩ := s
  constructor
  · intro h; simp only at h; subst h; rfl
  · intro h; rw [h]

lemma ne_empty_of_pyStrip (name : String) (h : pyStrip name ≠ "") : name ≠ "" := by
  intro h0; subst h0; exact h rfl

/-- A string whose character data contains the data of a non-empty
string is itself non-empty. -/
lemma ne_empty_of_decomp (out n : String) (a b : List Char) (hn : n ≠ "")
    (h : out.data = a ++ n.data ++ b) : out ≠ "" := by
  intro h0
  rw [h0] at h
  have hnil : ([] : List Char) = a ++ n.data ++ b := h
  have := (List.append_eq_nil.mp (List.append_eq_nil.mp hnil.symm).1).2
  exact hn ((data_nil_iff n).mp this)

/-- Once the name passes validation, `greet` resolves the configuration,
possibly raises the root-logger level, and hands over to the body. -/
lemma greet_pass (name : String) (config : Option AppConfig) (lv : Nat)
    (hname : pyStrip name ≠ "") (hlen : name.length ≤ 1000) :
    greet name config lv = (greetBody name (config.getD {}), config,
      if (config.getD {}).debug then logging_DEBUG else lv) := by
  have hne : name ≠ "" := ne_empty_of_pyStrip name hname
  unfold greet
  rw [if_neg, if_neg]
  · exact Nat.not_lt.mpr hlen
  · rintro (h | h)
    · exact hne h
    · exact hname h

/-- Symbolic evaluation of the Latin default pattern. -/
lemma render_latin (n m p s : String) :
    pyFormat latinDefaultPattern (greetSubst n m p s) =
      .ok (p ++ ("," ++ (" " ++ (n ++ ("!" ++ (" " ++ (m ++ ""))))))) := rfl

/-- Symbolic evaluation of the CJK default pattern (the two literal
characters between the affixes are U+00E3 and U+20AC, as in the
source). -/
lemma render_cjk (n m p s : String) :
    pyFormat cjkDefaultPattern (greetSubst n m p s) =
      .ok (p ++ ("ã" ++ ("€" ++ (n ++ ("!" ++ (" " ++ (m ++ ""))))))) := rfl

/-- Symbolic evaluation of the registered `formal` pattern. -/
lemma render_formal (n m p s : String) :
    pyFormat "\x7bprefix\x7d: {name}{suffix} {message}" (greetSubst n m p s) =
      .ok (p ++ (":" ++ (" " ++ (n ++ (s ++ (" " ++ (m ++ ""))))))) := rfl

/-- Symbolic evaluation of the registered `casual` pattern. -/
lemma render_casual (n m p s : String) :
    pyFormat "\x7bprefix\x7d {name}! {message}" (greetSubst n m p s) =
      .ok (p ++ (" " ++ (n ++ ("!" ++ (" " ++ (m ++ "")))))) := rfl

lemma lookup_default : TemplateManager.lookup "default" =
    some ⟨"\x7bprefix\x7d, {name}{suffix} {message}", .DEFAULT,
      ["simple", "greeting"], "Default greeting template"⟩ := rfl

lemma lookup_formal : TemplateManager.lookup "formal" =
    some ⟨"\x7bprefix\x7d: {name}{suffix} {message}", .FORMAL,
      ["polite", "business"], "Formal greeting template"⟩ := rfl

lemma lookup_casual : TemplateManager.lookup "casual" =
    some ⟨"\x7bprefix\x7d {name}! {message}", .CASUAL,
      ["friendly", "informal"], "Casual greeting template"⟩ := rfl

/-- The registry holds exactly the keys `default`, `formal`, `casual`. -/
lemma lookup_elim (s : String) (h : TemplateManager.lookup s ≠ none) :
    s = "default" ∨ s = "formal" ∨ s = "casual" := by
  by_cases h1 : s = "default"
  · exact Or.inl h1
  by_cases h2 : s = "formal"
  · exact Or.inr (Or.inl h2)
  by_cases h3 : s = "casual"
  · exact Or.inr (Or.inr h3)
  exfalso; apply h
  have e1 : ("default" == s) = false := beq_eq_false_iff_ne.mpr (Ne.symm h1)
  have e2 : ("formal" == s) = false := beq_eq_false_iff_ne.mpr (Ne.symm h2)
  have e3 : ("casual" == s) = false := beq_eq_false_iff_ne.mpr (Ne.symm h3)
  simp [TemplateManager.lookup, templateRegistry, List.find?, e1, e2, e3]

lemma resolve_default (cfg : AppConfig) (l : Language)
    (hst : cfg.template_style = "default") (hl : cfg.language = .known l) :
    resolveTemplate cfg =
      .ok (if l = Language.JA then cjkDefaultPattern else latinDefaultPattern) := by
  unfold resolveTemplate TemplateManager.get_template
  rw [hst, hl, lookup_default]
  by_cases hja : l = Language.JA <;> simp [hja]

lemma resolve_formal (cfg : AppConfig) (hst : cfg.template_style = "formal") :
    resolveTemplate cfg = .ok "\x7bprefix\x7d: {name}{suffix} {message}" := by
  unfold resolveTemplate TemplateManager.get_template
  rw [hst, lookup_formal]
  rfl

lemma resolve_casual (cfg : AppConfig) (hst : cfg.template_style = "casual") :
    resolveTemplate cfg = .ok "\x7bprefix\x7d {name}! {message}" := by
  unfold resolveTemplate TemplateManager.get_template
  rw [hst, lookup_casual]
  rfl

lemma resolve_notfound (cfg : AppConfig)
    (h : TemplateManager.lookup cfg.template_style = none) :
    resolveTemplate cfg = .error (.templateNotFoundError cfg.template_style) := by
  unfold resolveTemplate TemplateManager.get_template
  rw [h]

lemma greetBody_ok (name : String) (cfg : AppConfig) (l : Language) (pat out : String)
    (hl : cfg.language = .known l) (hres : resolveTemplate cfg = .ok pat)
    (hfmt : pyFormat pat (greetSubst name (cfg.custom_message.getD "")
      (translationCatalog l).greetingPre (translationCatalog l).greetingSuf) = .ok out) :
    greetBody name cfg = .ok out := by
  unfold greetBody
  rw [hl, hres]
  simp [get_translation, hfmt]

lemma greetBody_lang_error (name : String) (cfg : AppConfig) (raw : String)
    (h : cfg.language = .unknown raw) :
    greetBody name cfg = .error (.unsupportedLanguageError raw) := by
  unfold greetBody
  rw [h]
  rfl

lemma greetBody_template_error (name : String) (cfg : AppConfig) (l : Language)
    (e : GreetError) (hl : cfg.language = .known l)
    (hres : resolveTemplate cfg = .error e) :
    greetBody name cfg = .error e := by
  unfold greetBody
  rw [hl, hres]
  rfl

/-- Any error produced by template resolution is a
`templateNotFoundError` for the configured style. -/
lemma resolveTemplate_error_shape (cfg : AppConfig) (e : GreetError)
    (h : resolveTemplate cfg = .error e) :
    e = .templateNotFoundError cfg.template_style := by
  unfold resolveTemplate TemplateManager.get_template at h
  rcases hlk : TemplateManager.lookup cfg.template_style with _ | info
  · rw [hlk] at h
    simp at h
    exact h.symm
  · rw [hlk] at h
    simp only [] at h
    split at h
    · split at h <;> simp at h
    · simp at h

/-- After name validation has passed, no later step of `greet` raises a
`ValidationError`. -/
lemma greetBody_never_validation (name : String) (cfg : AppConfig)
    (fs : List (String × String)) :
    greetBody name cfg ≠ .error (.validationError fs) := by
  unfold greetBody
  rcases hlang : cfg.language with l | raw
  · simp only [get_translation]
    rcases hres : resolveTemplate cfg with e | pat
    · have hsh := resolveTemplate_error_shape cfg e hres
      simp [hsh]
    · rcases hfmt : pyFormat pat (greetSubst name (cfg.custom_message.getD "")
          (translationCatalog l).greetingPre (translationCatalog l).greetingSuf) with fe | out
      · simp [hfmt]
      · simp [hfmt]
  · simp [get_translation]

/-- Common success shape of one `greet` branch: with a valid name, a
known language, a resolved pattern and its symbolic rendering, `greet`
succeeds and the output decomposes around the name. -/
lemma greet_branch (name : String) (cfg : AppConfig) (l : Language) (lv : Nat)
    (pat out : String) (a b : List Char)
    (hname : pyStrip name ≠ "") (hlen : name.length ≤ 1000)
    (hlang : cfg.language = .known l)
    (hres : resolveTemplate cfg = .ok pat)
    (hfmt : pyFormat pat (greetSubst name (cfg.custom_message.getD "")
      (translationCatalog l).greetingPre (translationCatalog l).greetingSuf) = .ok out)
    (hdata : out.data = a ++ name.data ++ b) :
    ∃ o, (greet name (some cfg) lv).1 = .ok o ∧ o ≠ "" ∧
      ∃ x y, o.data = x ++ name.data ++ y := by
  refine ⟨out, ?_, ne_empty_of_decomp out name a b (ne_empty_of_pyStrip name hname) hdata,
    a, b, hdata⟩
  rw [greet_pass name (some cfg) lv hname hlen]
  exact greetBody_ok name cfg l pat out hlang hres hfmt

/-! ## Claim theorems -/

/-- Claim C1: for every name that is non-empty after trimming and of at
most 1000 characters, and every configuration with a supported language
and a registered template style, `greet` succeeds with a non-empty
string that contains the name verbatim as a substring. -/
theorem greet_valid_contains_name (name : String) (cfg : AppConfig) (l : Language) (lv : Nat)
    (hname : pyStrip name ≠ "") (hlen : name.length ≤ 1000)
    (hlang : cfg.language = .known l)
    (hstyle : TemplateManager.lookup cfg.template_style ≠ none) :
    ∃ out, (greet name (some cfg) lv).1 = .ok out ∧ out ≠ "" ∧
      ∃ a b, out.data = a ++ name.data ++ b := by
  rcases lookup_elim cfg.template_style hstyle with hst | hst | hst
  · have hres := resolve_default cfg l hst hlang
    by_cases hja : l = Language.JA
    · rw [if_pos hja] at hres
      exact greet_branch name cfg l lv cjkDefaultPattern _
        ((translationCatalog l).greetingPre.data ++ ("ã" : String).data ++ ("€" : String).data)
        (("!" : String).data ++ (" " : String).data ++ (cfg.custom_message.getD "").data ++
          ("" : String).data)
        hname hlen hlang hres
        (render_cjk name (cfg.custom_message.getD "") (translationCatalog l).greetingPre
          (translationCatalog l).greetingSuf)
        (by simp [String.data_append, List.append_assoc])
    · rw [if_neg hja] at hres
      exact greet_branch name cfg l lv latinDefaultPattern _
        ((translationCatalog l).greetingPre.data ++ ("," : String).data ++ (" " : String).data)
        (("!" : String).data ++ (" " : String).data ++ (cfg.custom_message.getD "").data ++
          ("" : String).data)
        hname hlen hlang hres
        (render_latin name (cfg.custom_message.getD "") (translationCatalog l).greetingPre
          (translationCatalog l).greetingSuf)
        (by simp [String.data_append, List.append_assoc])
  · have hres := resolve_formal cfg hst
    exact greet_branch name cfg l lv "\x7bprefix\x7d: {name}{suffix} {message}" _
      ((translationCatalog l).greetingPre.data ++ (":" : String).data ++ (" " : String).data)
      ((translationCatalog l).greetingSuf.data ++ (" " : String).data ++
        (cfg.custom_message.getD "").data ++ ("" : String).data)
      hname hlen hlang hres
      (render_formal name (cfg.custom_message.getD "") (translationCatalog l).greetingPre
        (translationCatalog l).greetingSuf)
      (by simp [String.data_append, List.append_assoc])
  · have hres := resolve_casual cfg hst
    exact greet_branch name cfg l lv "\x7bprefix\x7d {name}! {message}" _
      ((translationCatalog l).greetingPre.data ++ (" " : String).data)
      (("!" : String).data ++ (" " : String).data ++ (cfg.custom_message.getD "").data ++
        ("" : String).data)
      hname hlen hlang hres
      (render_casual name (cfg.custom_message.getD "") (translationCatalog l).greetingPre
        (translationCatalog l).greetingSuf)
      (by simp [String.data_append, List.append_assoc])

/-- Witness for C1 at name `"Sam"` and the default configuration. -/
theorem greet_valid_contains_name_witness :
    pyStrip "Sam" ≠ "" ∧ "Sam".length ≤ 1000 ∧
    ({} : AppConfig).language = LangInput.known Language.EN ∧
    TemplateManager.lookup ({} : AppConfig).template_style ≠ none ∧
    (∃ out, (greet "Sam" (some {}) logging_INFO).1 = .ok out ∧ out ≠ "" ∧
      ∃ a b, out.data = a ++ "Sam".data ++ b) :=
  ⟨by decide, by decide, rfl, by decide,
    greet_valid_contains_name "Sam" {} Language.EN logging_INFO (by decide) (by decide) rfl
      (by decide)⟩

/-- Claim C2: with `template_style = "default"` the registry's stored
pattern is ignored; the pattern is hardcoded by language — the
CJK-specific pattern for JA, the Latin-script pattern for every other
language — neither containing the `suffix` placeholder — and `greet`
formats with exactly that pattern. -/
theorem greet_default_style_hardcoded (name : String) (cfg : AppConfig) (l : Language) (lv : Nat)
    (hname : pyStrip name ≠ "") (hlen : name.length ≤ 1000)
    (hstyle : cfg.template_style = "default")
    (hlang : cfg.language = .known l) :
    resolveTemplate cfg =
      .ok (if l = Language.JA then cjkDefaultPattern else latinDefaultPattern) ∧
    cjkDefaultPattern = "\x7bprefix\x7dã€{name}! {message}" ∧
    latinDefaultPattern = "\x7bprefix\x7d, {name}! {message}" ∧
    strContains cjkDefaultPattern "{suffix}" = false ∧
    strContains latinDefaultPattern "{suffix}" = false ∧
    (greet name (some cfg) lv).1 =
      (pyFormat (if l = Language.JA then cjkDefaultPattern else latinDefaultPattern)
        (greetSubst name (cfg.custom_message.getD "")
          (translationCatalog l).greetingPre
          (translationCatalog l).greetingSuf)).mapError .templateFormatError := by
  have hres := resolve_default cfg l hstyle hlang
  refine ⟨hres, rfl, rfl, by decide, by decide, ?_⟩
  rw [greet_pass name (some cfg) lv hname hlen]
  by_cases hja : l = Language.JA
  · rw [if_pos hja] at hres
    rw [if_pos hja]
    have hfmt := render_cjk name (cfg.custom_message.getD "")
      (translationCatalog l).greetingPre (translationCatalog l).greetingSuf
    rw [hfmt]
    exact greetBody_ok name cfg l cjkDefaultPattern _ hlang hres hfmt
  · rw [if_neg hja] at hres
    rw [if_neg hja]
    have hfmt := render_latin name (cfg.custom_message.getD "")
      (translationCatalog l).greetingPre (translationCatalog l).greetingSuf
    rw [hfmt]
    exact greetBody_ok name cfg l latinDefaultPattern _ hlang hres hfmt

/-- Witness for C2 at name `"Taro"` and a Japanese default-style
configuration. -/
theorem greet_default_style_hardcoded_witness :
    pyStrip "Taro" ≠ "" ∧ "Taro".length ≤ 1000 ∧
    ({ language := .known .JA } : AppConfig).template_style = "default" ∧
    ({ language := .known .JA } : AppConfig).language = LangInput.known Language.JA ∧
    (resolveTemplate { language := .known .JA } =
      .ok (if Language.JA = Language.JA then cjkDefaultPattern else latinDefaultPattern) ∧
    cjkDefaultPattern = "\x7bprefix\x7dã€{name}! {message}" ∧
    latinDefaultPattern = "\x7bprefix\x7d, {name}! {message}" ∧
    strContains cjkDefaultPattern "{suffix}" = false ∧
    strContains latinDefaultPattern "{suffix}" = false ∧
    (greet "Taro" (some { language := .known .JA }) logging_INFO).1 =
      (pyFormat (if Language.JA = Language.JA then cjkDefaultPattern else latinDefaultPattern)
        (greetSubst "Taro" (({ language := .known .JA } : AppConfig).custom_message.getD "")
          (translationCatalog Language.JA).greetingPre
          (translationCatalog Language.JA).greetingSuf)).mapError .templateFormatError) :=
  ⟨by decide, by decide, rfl, rfl,
    greet_default_style_hardcoded "Taro" { language := .known .JA } Language.JA logging_INFO
      (by decide) (by decide) rfl rfl⟩

/-- Claim C3: an empty, whitespace-only or over-1000-character name is
rejected with a `ValidationError` keyed `name` for every configuration,
before any translation or template lookup; a name of exactly 1000
characters is not rejected by the length check. -/
theorem greet_name_validation (name1 name2 : String) (config1 config2 : Option AppConfig)
    (lv1 lv2 : Nat)
    (h1 : pyStrip name1 = "" ∨ 1000 < name1.length) (h2 : name2.length = 1000) :
    (∃ msg, (greet name1 config1 lv1).1 = .error (.validationError [("name", msg)])) ∧
    (greet name2 config2 lv2).1 ≠
      .error (.validationError [("name", "Name is too long (max 1000 characters)")]) := by
  constructor
  · by_cases hs : pyStrip name1 = ""
    · exact ⟨"Name cannot be empty", by unfold greet; rw [if_pos (Or.inr hs)]⟩
    · have hlen : 1000 < name1.length := h1.resolve_left hs
      refine ⟨"Name is too long (max 1000 characters)", ?_⟩
      unfold greet
      rw [if_neg, if_pos hlen]
      rintro (h | h)
      · subst h; exact hs rfl
      · exact hs h
  · by_cases hE : name2 = "" ∨ pyStrip name2 = ""
    · unfold greet
      rw [if_pos hE]
      simp
    · have hlen2 : ¬ name2.length > 1000 := by omega
      unfold greet
      rw [if_neg hE, if_neg hlen2]
      exact greetBody_never_validation name2 (config2.getD {}) _

/-- Witness for C3 at the empty name and a 1000-character name. -/
theorem greet_name_validation_witness :
    (pyStrip "" = "" ∨ 1000 < ("" : String).length) ∧
    (String.mk (List.replicate 1000 'a')).length = 1000 ∧
    ((∃ msg, (greet "" none logging_INFO).1 = .error (.validationError [("name", msg)])) ∧
    (greet (String.mk (List.replicate 1000 'a')) none logging_INFO).1 ≠
      .error (.validationError [("name", "Name is too long (max 1000 characters)")])) :=
  ⟨Or.inl (by decide), List.length_replicate 1000 'a',
    greet_name_validation "" (String.mk (List.replicate 1000 'a')) none none
      logging_INFO logging_INFO (Or.inl (by decide)) (List.length_replicate 1000 'a')⟩

/-- Claim C4: whenever `async_greet` completes without timing out, it
returns exactly what `greet` returns — the same string on success, the
same error on failure — leaving configuration and logging state exactly
as `greet` leaves them. -/
theorem async_greet_refines_greet (delayMs : Nat) (h : delayMs ≤ 5000)
    (name : String) (config : Option AppConfig) (lv : Nat) :
    async_greet delayMs name config lv = greet name config lv ∧
    (∀ out, (greet name config lv).1 = .ok out →
      (async_greet delayMs name config lv).1 = .ok out) ∧
    (∀ e, (greet name config lv).1 = .error e →
      (async_greet delayMs name config lv).1 = .error e) := by
  have heq : async_greet delayMs name config lv = greet name config lv := by
    unfold async_greet
    rw [if_neg (Nat.not_lt.mpr h)]
  exact ⟨heq, fun out ho => by rw [heq]; exact ho, fun e he => by rw [heq]; exact he⟩

/-- Witness for C4 at a 100 ms delay. -/
theorem async_greet_refines_greet_witness :
    100 ≤ 5000 ∧
    (async_greet 100 "Sam" none logging_INFO = greet "Sam" none logging_INFO ∧
    (∀ out, (greet "Sam" none logging_INFO).1 = .ok out →
      (async_greet 100 "Sam" none logging_INFO).1 = .ok out) ∧
    (∀ e, (greet "Sam" none logging_INFO).1 = .error e →
      (async_greet 100 "Sam" none logging_INFO).1 = .error e)) :=
  ⟨by decide, async_greet_refines_greet 100 (by decide) "Sam" none logging_INFO⟩

/-- Claim C5: an unregistered template style fails with
`TemplateNotFoundError`, a language value outside the enumerated set
fails with `UnsupportedLanguageError`, and `greet` propagates both
errors to its caller unchanged. -/
theorem lookup_errors_propagate (style raw name : String) (cfg1 cfg2 : AppConfig) (lv : Nat)
    (hstyle : TemplateManager.lookup style = none)
    (hname : pyStrip name ≠ "") (hlen : name.length ≤ 1000)
    (hlang1 : cfg1.language = .unknown raw)
    (hlang2 : ∃ l, cfg2.language = LangInput.known l)
    (hsty2 : cfg2.template_style = style) :
    TemplateManager.get_template style = .error (.templateNotFoundError style) ∧
    get_translation (.unknown raw) = .error (.unsupportedLanguageError raw) ∧
    (greet name (some cfg1) lv).1 = .error (.unsupportedLanguageError raw) ∧
    (greet name (some cfg2) lv).1 = .error (.templateNotFoundError style) := by
  refine ⟨?_, rfl, ?_, ?_⟩
  · unfold TemplateManager.get_template
    rw [hstyle]
  · rw [greet_pass name (some cfg1) lv hname hlen]
    exact greetBody_lang_error name cfg1 raw hlang1
  · obtain ⟨l, hl⟩ := hlang2
    rw [greet_pass name (some cfg2) lv hname hlen]
    have hres : resolveTemplate cfg2 = .error (.templateNotFoundError cfg2.template_style) :=
      resolve_notfound cfg2 (by rw [hsty2]; exact hstyle)
    have hb := greetBody_template_error name cfg2 l _ hl hres
    rw [hsty2] at hb
    exact hb

/-- Witness for C5 at style `"nonexistent"` and language value `"xx"`. -/
theorem lookup_errors_propagate_witness :
    TemplateManager.lookup "nonexistent" = none ∧
    pyStrip "Sam" ≠ "" ∧ "Sam".length ≤ 1000 ∧
    ({ language := .unknown "xx" } : AppConfig).language = LangInput.unknown "xx" ∧
    (∃ l, ({ template_style := "nonexistent" } : AppConfig).language =
      LangInput.known l) ∧
    ({ template_style := "nonexistent" } : AppConfig).template_style = "nonexistent" ∧
    (TemplateManager.get_template "nonexistent" =
      .error (.templateNotFoundError "nonexistent") ∧
    get_translation (.unknown "xx") = .error (.unsupportedLanguageError "xx") ∧
    (greet "Sam" (some { language := .unknown "xx" }) logging_INFO).1 =
      .error (.unsupportedLanguageError "xx") ∧
    (greet "Sam" (some { template_style := "nonexistent" }) logging_INFO).1 =
      .error (.templateNotFoundError "nonexistent")) :=
  ⟨by decide, by decide, by decide, rfl, ⟨Language.EN, rfl⟩, rfl,
    lookup_errors_propagate "nonexistent" "xx" "Sam" { language := .unknown "xx" }
      { template_style := "nonexistent" } logging_INFO (by decide) (by decide) (by decide)
      rfl ⟨Language.EN, rfl⟩ rfl⟩

/-- Claim C6: a truthy tags argument that splits into more than 10
parts, or whose parts include one that is empty after stripping, makes
the template-listing operation fail with a `ValidationError` keyed
`tags` before any tag search. -/
theorem list_templates_tags_validation (tags : String) (category : Option String)
    (hcat : pyTruthy category = none) (ht : tags ≠ "")
    (hbad : 10 < (pySplit tags ',').length ∨ ∃ x ∈ pySplit tags ',', pyStrip x = "") :
    ∃ msg, list_templates category (some tags) =
      .error (.validationError [("tags", msg)]) := by
  have hpt : pyTruthy (some tags) = some tags := by simp [pyTruthy, ht]
  unfold list_templates
  rw [hcat]
  by_cases hemp : ∃ x ∈ pySplit tags ',', pyStrip x = ""
  · refine ⟨"Empty tags are not allowed", ?_⟩
    have hall : ((pySplit tags ',').all fun x => pyStrip x != "") = false := by
      obtain ⟨x, hx, hxe⟩ := hemp
      rw [List.all_eq_false]
      exact ⟨x, hx, by simp [hxe]⟩
    simp only [hpt, hall]
    simp
  · have hall : ((pySplit tags ',').all fun x => pyStrip x != "") = true := by
      rw [List.all_eq_true]
      intro x hx
      have hne : pyStrip x ≠ "" := fun he => hemp ⟨x, hx, he⟩
      simpa using hne
    have hlen : 10 < (pySplit tags ',').length := hbad.resolve_right hemp
    refine ⟨"Too many tags (max 10)", ?_⟩
    simp only [hpt, hall]
    simp [hlen]

/-- Witness for C6 at an 11-tag input. -/
theorem list_templates_tags_validation_witness :
    pyTruthy none = none ∧ ("a,b,c,d,e,f,g,h,i,j,k" : String) ≠ "" ∧
    (10 < (pySplit "a,b,c,d,e,f,g,h,i,j,k" ',').length ∨
      ∃ x ∈ pySplit "a,b,c,d,e,f,g,h,i,j,k" ',', pyStrip x = "") ∧
    (∃ msg, list_templates none (some "a,b,c,d,e,f,g,h,i,j,k") =
      .error (.validationError [("tags", msg)])) :=
  ⟨rfl, by decide, Or.inl (by decide),
    list_templates_tags_validation "a,b,c,d,e,f,g,h,i,j,k" none rfl (by decide)
      (Or.inl (by decide))⟩

/-- Claim C7: a truthy category string outside the enumerated
`TemplateCategory` set makes template listing fail with
`InvalidCategoryError`, validated against the closed set before any
filtering, the error carrying the full set of valid category values. -/
theorem list_templates_invalid_category (c : String) (tags : Option String)
    (hc : c ≠ "") (hout : ∀ cat : TemplateCategory, cat.value ≠ c) :
    list_templates (some c) tags =
      .error (.invalidCategoryError c TemplateCategory.allValues) ∧
    TemplateCategory.allValues = ["formal", "casual", "default"] ∧
    (∀ cat : TemplateCategory, cat.value ∈ TemplateCategory.allValues) := by
  refine ⟨?_, rfl, fun cat => by cases cat <;> decide⟩
  have h1 : c ≠ "formal" := Ne.symm (hout .FORMAL)
  have h2 : c ≠ "casual" := Ne.symm (hout .CASUAL)
  have h3 : c ≠ "default" := Ne.symm (hout .DEFAULT)
  have hfs : TemplateCategory.fromString c = none := by
    unfold TemplateCategory.fromString
    rw [if_neg h1, if_neg h2, if_neg h3]
  have hpt : pyTruthy (some c) = some c := by simp [pyTruthy, hc]
  unfold list_templates
  simp only [hpt, hfs]

/-- Witness for C7 at category `"fancy"`. -/
theorem list_templates_invalid_category_witness :
    ("fancy" : String) ≠ "" ∧ (∀ cat : TemplateCategory, cat.value ≠ "fancy") ∧
    (list_templates (some "fancy") none =
      .error (.invalidCategoryError "fancy" TemplateCategory.allValues) ∧
    TemplateCategory.allValues = ["formal", "casual", "default"] ∧
    (∀ cat : TemplateCategory, cat.value ∈ TemplateCategory.allValues)) :=
  ⟨by decide, fun cat => by cases cat <;> decide,
    list_templates_invalid_category "fancy" none (by decide)
      (fun cat => by cases cat <;> decide)⟩

/-- Claim C8: when the wrapped computation does not complete within the
5-second deadline, `async_greet` fails with `OperationTimeoutError`, an
error distinct from every other resolver error. -/
theorem async_greet_timeout (delayMs : Nat) (h : 5000 < delayMs)
    (name : String) (config : Option AppConfig) (lv : Nat) :
    (async_greet delayMs name config lv).1 = .error .operationTimeoutError ∧
    (∀ fs, (GreetError.operationTimeoutError : GreetError) ≠ .validationError fs) ∧
    (∀ v, (GreetError.operationTimeoutError : GreetError) ≠ .unsupportedLanguageError v) ∧
    (∀ s, (GreetError.operationTimeoutError : GreetError) ≠ .templateNotFoundError s) ∧
    (∀ f, (GreetError.operationTimeoutError : GreetError) ≠ .templateFormatError f) := by
  refine ⟨?_, fun fs => by simp, fun v => by simp, fun s => by simp, fun f => by simp⟩
  unfold async_greet
  rw [if_pos h]

/-- Witness for C8 at a 5001 ms delay. -/
theorem async_greet_timeout_witness :
    5000 < 5001 ∧
    ((async_greet 5001 "Sam" none logging_INFO).1 = .error .operationTimeoutError ∧
    (∀ fs, (GreetError.operationTimeoutError : GreetError) ≠ .validationError fs) ∧
    (∀ v, (GreetError.operationTimeoutError : GreetError) ≠ .unsupportedLanguageError v) ∧
    (∀ s, (GreetError.operationTimeoutError : GreetError) ≠ .templateNotFoundError s) ∧
    (∀ f, (GreetError.operationTimeoutError : GreetError) ≠ .templateFormatError f)) :=
  ⟨by decide, async_greet_timeout 5001 (by decide) "Sam" none logging_INFO⟩

/-- Claim C9 counterexample: a completed debug-mode call leaves the
root-logger level at DEBUG instead of restoring the INFO level it found
— the claim's "restored after the call returns" is false at this
input. -/
theorem greet_debug_level_not_restored_cex :
    (greet "Sam" (some { debug := true }) logging_INFO).1 = .ok "Hello, Sam! " ∧
    (greet "Sam" (some { debug := true }) logging_INFO).2.2 = logging_DEBUG ∧
    logging_DEBUG ≠ logging_INFO :=
  ⟨by decide, by decide, by decide⟩

/-- Claim C9 (amended): a call with `debug` set that passes name
validation raises the root-logger level to DEBUG and leaves it there
after the call — it is not restored; calls with `debug` unset (or that
fail name validation) leave the level unchanged. -/
theorem greet_log_level_after (name : String) (config : Option AppConfig) (lv : Nat) :
    (greet name config lv).2.2 =
      if name = "" ∨ pyStrip name = "" then lv
      else if name.length > 1000 then lv
      else if (config.getD {}).debug then logging_DEBUG else lv := by
  by_cases hA : name = "" ∨ pyStrip name = ""
  · simp only [greet, if_pos hA]
  by_cases hB : name.length > 1000
  · simp only [greet, if_neg hA, if_pos hB]
  · simp only [greet, if_neg hA, if_neg hB]

/-- Claim C10: `greet` never mutates the `AppConfig` it is given —
after the call every field is unchanged. -/
theorem greet_config_unchanged (name : String) (cfg : AppConfig) (lv : Nat) :
    ∃ cfg', (greet name (some cfg) lv).2.1 = some cfg' ∧
      cfg'.debug = cfg.debug ∧ cfg'.language = cfg.language ∧
      cfg'.template_style = cfg.template_style ∧
      cfg'.custom_message = cfg.custom_message ∧
      cfg'.async_mode = cfg.async_mode ∧ cfg'.log_level = cfg.log_level := by
  refine ⟨cfg, ?_, rfl, rfl, rfl, rfl, rfl, rfl⟩
  unfold greet
  split
  · rfl
  split
  · rfl
  rfl

end ConfigMaster
